import Mathlib

/-!
Shallow embedding of the sync-autoreboot watchdog (src/app.js).

Numbers that JavaScript handles as possibly-NaN doubles are modelled as
`Option Int` (`none` = NaN); instants and durations are `Int` milliseconds.
File and network effects are modelled as explicit parameters, and the
observable actions of `restartSystem` as a list of events in program order.
-/

namespace SyncAutoreboot

/-- A JavaScript number as it occurs in `checkTimestamp`: an integer value, or
`none` modelling `NaN` (the result of `new Date(x).getTime()` on an input that
does not parse to a valid instant). -/
abbrev JsNum := Option Int

/-- JavaScript subtraction: NaN propagates. -/
def jsSub : JsNum → JsNum → JsNum
  | some a, some b => some (a - b)
  | _, _ => none

/-- JavaScript `Math.abs`: NaN propagates. -/
def jsAbs : JsNum → JsNum
  | some a => some |a|
  | none => none

/-- JavaScript comparison `x > y`: `false` whenever either side is NaN. -/
def jsGt : JsNum → JsNum → Bool
  | some a, some b => decide (b < a)
  | _, _ => false

/-- Outcome of `await axios.get(API_URL)` followed by
`new Date(response.data.timestamp).getTime()` in `checkTimestamp`
(src/app.js lines 67-86). `failure` models the promise rejecting (network
error, timeout, non-2xx status), which lands in the `catch` block. On a
fulfilled response, `apiTimestamp` is the parsed timestamp; `none` models
`NaN`, i.e. a payload whose `timestamp` field is absent or does not parse to
a valid instant. -/
inductive FetchResult
  | failure
  | success (apiTimestamp : JsNum)
deriving DecidableEq, Repr

/-- The classification performed by `checkTimestamp` (src/app.js lines 67-86):
the Boolean passed to `setAlarm` at the end of the tick; `true` means the
sample was treated as out of sync. The function in the source has no other
effect on the alarm state than this call. -/
def checkTimestamp (allowedDifference : Int) (resp : FetchResult)
    (localTimestamp : Int) : Bool :=
  match resp with
  | .failure => true
  | .success apiTimestamp =>
      let diff := jsAbs (jsSub (some localTimestamp) apiTimestamp)
      jsGt diff (some allowedDifference)

/-- The two module-level mutable variables of the client
(src/app.js lines 49-50): `alarm` and `timestamp_alarm`. The source stores in
`timestamp_alarm` the deadline `Date.now() + TIMEOUT_DURATION`, not the raise
time itself. -/
structure AlarmSt where
  alarm : Bool
  timestamp_alarm : Int
deriving DecidableEq, Repr

/-- The initial values `alarm = false`, `timestamp_alarm = 0`
(src/app.js lines 49-50). -/
def initialAlarm : AlarmSt := ⟨false, 0⟩

/-- `setAlarm` (src/app.js lines 92-102). `now` is the value of `Date.now()`
at the call. Raising from clear stores the deadline `now + timeoutDuration`;
clearing resets the deadline to 0; the two remaining cases leave the state
untouched. -/
def setAlarm (timeoutDuration now : Int) (state : Bool) (s : AlarmSt) : AlarmSt :=
  if state && !s.alarm then
    { alarm := true, timestamp_alarm := now + timeoutDuration }
  else if !state && s.alarm then
    { alarm := false, timestamp_alarm := 0 }
  else
    s

/-- The reboot-eligibility test of the interval callback
(src/app.js line 188): `alarm && Date.now() >= timestamp_alarm`. -/
def maturedCheck (now : Int) (s : AlarmSt) : Bool :=
  s.alarm && decide (s.timestamp_alarm ≤ now)

/-- Spec-side alarm state (spec section 4.2): `Clear` or `Armed raisedAt`. -/
inductive SpecAlarm
  | clear
  | armed (raisedAt : Int)
deriving DecidableEq, Repr

/-- Spec-side transition function, following the words of spec section 4.2:
out-of-sync arms a clear machine at `now` and leaves an armed machine with its
`raisedAt` unchanged; any single in-sync sample clears. -/
def specAlarmStep (now : Int) (outOfSync : Bool) : SpecAlarm → SpecAlarm
  | .clear => if outOfSync then .armed now else .clear
  | .armed r => if outOfSync then .armed r else .clear

/-- Abstraction from the code state to the spec state: the source keeps the
deadline `raisedAt + TIMEOUT_DURATION` in `timestamp_alarm`, so an armed state
abstracts to `armed (timestamp_alarm - timeoutDuration)`. -/
def abstractAlarm (timeoutDuration : Int) (s : AlarmSt) : SpecAlarm :=
  if s.alarm then .armed (s.timestamp_alarm - timeoutDuration) else .clear

/-- `getLastRebootTimestamp` (src/app.js lines 108-115). `fileContent = none`
models `readFileSync` throwing (missing or unreadable file), caught and turned
into 0; `some none` models content whose `parseInt` is `NaN`, turned into 0 by
the `|| 0` fallback; `some (some n)` a parsed integer (for `n = 0` the `|| 0`
fallback also yields 0, the same value). -/
def getLastRebootTimestamp (fileContent : Option (Option Int)) : Int :=
  match fileContent with
  | none => 0
  | some none => 0
  | some (some n) => n

/-- Observable actions of `restartSystem` and its helpers, in program order. -/
inductive RebootEvent
  | skipLog
  | writeRecord
  | writeErrorLog
  | restartingLog
  | execCmd (cmd : String)
deriving DecidableEq, Repr

/-- `setLastRebootTimestamp` (src/app.js lines 120-126) as its observable
actions: `writeOk` models whether `fs.writeFileSync` succeeds; a failure is
caught and logged, never rethrown, so the caller always continues. -/
def setLastRebootTimestamp (writeOk : Bool) : List RebootEvent :=
  if writeOk then [.writeRecord] else [.writeErrorLog]

/-- The command string chosen by `restartSystem` (src/app.js lines 145-153),
by operating mode and platform. -/
def restartCmd (devMode isWin32 : Bool) : String :=
  if devMode then
    if isWin32 then "cmd /c echo Win Shutdown" else "echo Unix Shutdown"
  else
    if isWin32 then "shutdown /r /t 60" else "sudo shutdown -r +1"

/-- `restartSystem` (src/app.js lines 132-171) as the list of its observable
actions in program order. `now` is `Date.now()` at entry, `fileContent` what
the guard-record read sees, `writeOk` whether the guard-record write succeeds.
The guard test is the literal source test `now - last < MIN_REBOOT_INTERVAL`;
when it fails, the write is attempted, the restart is logged and the command
handed to `exec`. -/
def restartSystem (minRebootInterval now : Int) (fileContent : Option (Option Int))
    (writeOk devMode isWin32 : Bool) : List RebootEvent :=
  let last := getLastRebootTimestamp fileContent
  if now - last < minRebootInterval then
    [.skipLog]
  else
    setLastRebootTimestamp writeOk ++ [.restartingLog, .execCmd (restartCmd devMode isWin32)]

/-- The guard decision inside `restartSystem` (src/app.js lines 136-140): the
reboot proceeds exactly when the source test `now - last < MIN_REBOOT_INTERVAL`
is false. -/
def rebootPermitted (minRebootInterval now : Int)
    (fileContent : Option (Option Int)) : Bool :=
  !(decide (now - getLastRebootTimestamp fileContent < minRebootInterval))

/-- One interval callback of `startClient` (src/app.js lines 186-191) together
with the deferred completion of the same call to `checkTimestamp`. The source
invokes `checkTimestamp()` without `await`; its first `await axios.get`
suspends it, so the test `alarm && Date.now() >= timestamp_alarm` on line 188
runs against the state as it was when the callback started, and the sample
outcome is applied to the state only when the promise resolves, after the
callback has returned. The result is the state after the sample lands and
whether `restartSystem` was invoked in this callback. -/
def tickCode (allowedDifference timeoutDuration : Int) (s : AlarmSt)
    (resp : FetchResult) (localTimestamp now : Int) : AlarmSt × Bool :=
  let reboot := maturedCheck now s
  let s2 := setAlarm timeoutDuration localTimestamp
    (checkTimestamp allowedDifference resp localTimestamp) s
  (s2, reboot)

/-- Spec-side cycle, following the words of spec section 4.4: resolve the
sample, update the alarm state from it, and only then run the maturity check
on the updated state. -/
def tickSpec (allowedDifference timeoutDuration : Int) (s : AlarmSt)
    (resp : FetchResult) (localTimestamp now : Int) : AlarmSt × Bool :=
  let s2 := setAlarm timeoutDuration localTimestamp
    (checkTimestamp allowedDifference resp localTimestamp) s
  (s2, maturedCheck now s2)

/-- `process.env.NODE_ENV || "production"` (src/app.js line 13): `none` models
an unset variable; the empty string is falsy in JavaScript, so both fall back
to "production". -/
def envOf (nodeEnv : Option String) : String :=
  match nodeEnv with
  | none => "production"
  | some s => if s = "" then "production" else s

/-- Outcome of the startup dispatch: either the process reaches the
server/client start lines, or it throws first. -/
inductive StartupOutcome
  | started (serverStarted clientStarted : Bool)
  | thrown
deriving DecidableEq, Repr

/-- Startup mode dispatch (src/app.js lines 234-254). The unknown-mode branch
executes `env = "production"` on line 247, an assignment to the `const`
binding declared on line 13, which throws a TypeError; the dispatch sits
before `startServer()` and `startClient()`, so `thrown` means neither was
started. -/
def startup (nodeEnv : Option String) (isServer isClient : Bool) : StartupOutcome :=
  let env := envOf nodeEnv
  if env = "development" then .started isServer isClient
  else if env = "production" then .started isServer isClient
  else .thrown

/-! Helper lemmas shared by the claim theorems. -/

/-- Raising the alarm on an already armed state is a no-op in the source. -/
lemma setAlarm_armed_noop (timeoutDuration t : Int) (s : AlarmSt)
    (h : s.alarm = true) : setAlarm timeoutDuration t true s = s := by
  simp [setAlarm, h]

/-- Any sequence of further out-of-sync samples leaves an armed state
untouched. -/
lemma foldl_setAlarm_armed (timeoutDuration : Int) (ts : List Int) (s : AlarmSt)
    (h : s.alarm = true) :
    ts.foldl (fun st t => setAlarm timeoutDuration t true st) s = s := by
  induction ts with
  | nil => rfl
  | cons t ts ih =>
      rw [List.foldl_cons, setAlarm_armed_noop timeoutDuration t s h]
      exact ih

/-- Arming from the initial state stores the deadline `t + timeoutDuration`. -/
lemma setAlarm_arm (timeoutDuration t : Int) :
    setAlarm timeoutDuration t true initialAlarm = ⟨true, t + timeoutDuration⟩ := by
  simp [setAlarm, initialAlarm]

/-- Shape of the `restartSystem` trace when the guard denies. -/
lemma restartSystem_denied {minRebootInterval now : Int}
    {fileContent : Option (Option Int)} {writeOk devMode isWin32 : Bool}
    (hg : now - getLastRebootTimestamp fileContent < minRebootInterval) :
    restartSystem minRebootInterval now fileContent writeOk devMode isWin32
      = [RebootEvent.skipLog] := by
  simp [restartSystem, hg]

/-- Shape of the `restartSystem` trace when the guard permits. -/
lemma restartSystem_allowed {minRebootInterval now : Int}
    {fileContent : Option (Option Int)} {writeOk devMode isWin32 : Bool}
    (hg : ¬ (now - getLastRebootTimestamp fileContent < minRebootInterval)) :
    restartSystem minRebootInterval now fileContent writeOk devMode isWin32
      = setLastRebootTimestamp writeOk
          ++ [RebootEvent.restartingLog, RebootEvent.execCmd (restartCmd devMode isWin32)] := by
  simp [restartSystem, hg]

/-- On the permitted path, every position holding the exec event is preceded
by the guard-record write attempt. -/
lemma write_before_exec_aux (writeOk : Bool) (cmd : String) (i : Nat) (c : String)
    (h : (setLastRebootTimestamp writeOk
            ++ [RebootEvent.restartingLog, RebootEvent.execCmd cmd]).get? i
        = some (RebootEvent.execCmd c)) :
    (writeOk = true →
      RebootEvent.writeRecord
        ∈ (setLastRebootTimestamp writeOk
            ++ [RebootEvent.restartingLog, RebootEvent.execCmd cmd]).take i)
    ∧ (RebootEvent.writeRecord
        ∈ (setLastRebootTimestamp writeOk
            ++ [RebootEvent.restartingLog, RebootEvent.execCmd cmd]).take i
      ∨ RebootEvent.writeErrorLog
        ∈ (setLastRebootTimestamp writeOk
            ++ [RebootEvent.restartingLog, RebootEvent.execCmd cmd]).take i) := by
  cases writeOk with
  | false =>
      have e : setLastRebootTimestamp false
          ++ [RebootEvent.restartingLog, RebootEvent.execCmd cmd]
          = [RebootEvent.writeErrorLog, RebootEvent.restartingLog, RebootEvent.execCmd cmd] := rfl
      rw [e] at h ⊢
      obtain _ | _ | n := i
      · simp at h
      · simp at h
      · refine ⟨fun hco => absurd hco (by simp), Or.inr ?_⟩
        simp [List.take_succ_cons]
  | true =>
      have e : setLastRebootTimestamp true
          ++ [RebootEvent.restartingLog, RebootEvent.execCmd cmd]
          = [RebootEvent.writeRecord, RebootEvent.restartingLog, RebootEvent.execCmd cmd] := rfl
      rw [e] at h ⊢
      obtain _ | _ | n := i
      · simp at h
      · simp at h
      · refine ⟨fun _ => ?_, Or.inl ?_⟩ <;> simp [List.take_succ_cons]

/-! Claim theorems. -/

/-- C1: a rejected reference call (network error, timeout, non-2xx) is always
classified out-of-sync, but a fulfilled response whose timestamp field does
not parse to a valid instant (NaN) is classified in-sync: the NaN diff fails
the `diff > ALLOWED_DIFFERENCE` test and `setAlarm(false)` runs, contradicting
the claim that a malformed payload is never treated as in-sync. -/
theorem checkTimestamp_malformed_in_sync :
    (∀ (allowedDifference localTimestamp : Int),
        checkTimestamp allowedDifference .failure localTimestamp = true)
    ∧ checkTimestamp 300000 (.success none) 1700000000000 = false :=
  ⟨fun _ _ => rfl, rfl⟩

/-- C2 counterexample: with an armed, matured state carried over and the
current sample in-sync (diff 0 within allowance 1000 ms), the interval
callback of the source still invokes the reboot, while the spec-ordered cycle
does not: the reboot decision of the tick is not a function of that sample. -/
theorem tick_decision_ignores_current_sample_cex :
    checkTimestamp 1000 (.success (some 100)) 100 = false
    ∧ (tickCode 1000 0 ⟨true, 50⟩ (.success (some 100)) 100 100).2 = true
    ∧ (tickSpec 1000 0 ⟨true, 50⟩ (.success (some 100)) 100 100).2 = false := by
  decide

/-- C2 amended: `checkTimestamp()` is not awaited in the interval callback, so
the maturity check and reboot decision of a tick are computed from the alarm
state as it stood at the start of the callback — the state left by the last
resolved sample — independently of the outcome of the sample that the same
tick starts; that sample updates the alarm state only afterwards. -/
theorem tick_decision_from_previous_state
    (allowedDifference timeoutDuration : Int) (s : AlarmSt)
    (resp1 resp2 : FetchResult) (localTimestamp now : Int) :
    (tickCode allowedDifference timeoutDuration s resp1 localTimestamp now).2
      = (tickCode allowedDifference timeoutDuration s resp2 localTimestamp now).2
    ∧ (tickCode allowedDifference timeoutDuration s resp1 localTimestamp now).2
      = maturedCheck now s
    ∧ (tickCode allowedDifference timeoutDuration s resp1 localTimestamp now).1
      = (tickSpec allowedDifference timeoutDuration s resp1 localTimestamp now).1 :=
  ⟨rfl, rfl, rfl⟩

/-- C5: the source transition `setAlarm` refines the spec alarm machine of
section 4.2 through the abstraction `raisedAt = timestamp_alarm -
timeoutDuration`: out-of-sync arms a clear machine at the sample time,
out-of-sync leaves an armed machine with `raisedAt` unchanged, in-sync clears
an armed machine at once, and in-sync leaves a clear machine clear. -/
theorem setAlarm_refines_spec_transitions
    (timeoutDuration now : Int) (state : Bool) (s : AlarmSt) :
    abstractAlarm timeoutDuration (setAlarm timeoutDuration now state s)
      = specAlarmStep now state (abstractAlarm timeoutDuration s) := by
  cases s with
  | mk a t => cases a <;> cases state <;> simp [setAlarm, abstractAlarm, specAlarmStep]

/-- C6: for an alarm armed at `t0`, the line-188 eligibility test holds
exactly when `t0 + timeoutDuration ≤ now` — never before that instant, always
at and after it — and neither one further out-of-sync sample nor any sequence
of them moves the stored deadline (hence the maturity instant). -/
theorem alarm_maturity_iff_deadline
    (timeoutDuration t0 now t1 : Int) (ts : List Int) :
    (maturedCheck now (setAlarm timeoutDuration t0 true initialAlarm) = true
      ↔ t0 + timeoutDuration ≤ now)
    ∧ setAlarm timeoutDuration t1 true (setAlarm timeoutDuration t0 true initialAlarm)
      = setAlarm timeoutDuration t0 true initialAlarm
    ∧ ts.foldl (fun st t => setAlarm timeoutDuration t true st)
        (setAlarm timeoutDuration t0 true initialAlarm)
      = setAlarm timeoutDuration t0 true initialAlarm := by
  refine ⟨?_, ?_, ?_⟩
  · rw [setAlarm_arm]
    simp [maturedCheck]
  · exact setAlarm_armed_noop _ _ _ (by rw [setAlarm_arm])
  · exact foldl_setAlarm_armed _ _ _ (by rw [setAlarm_arm])

/-- C7: on a fulfilled response with a valid timestamp, the sample is
classified in-sync exactly when `|localTime - referenceTime| ≤
allowedDifference` and out-of-sync exactly when the diff strictly exceeds the
allowance; in particular the boundary `diff = allowedDifference` is in-sync.
The classification is a pure function of its inputs. -/
theorem drift_classification_boundary
    (allowedDifference localTime referenceTime : Int) :
    (checkTimestamp allowedDifference (.success (some referenceTime)) localTime = false
      ↔ |localTime - referenceTime| ≤ allowedDifference)
    ∧ (checkTimestamp allowedDifference (.success (some referenceTime)) localTime = true
      ↔ allowedDifference < |localTime - referenceTime|) := by
  constructor
  · simp [checkTimestamp, jsAbs, jsSub, jsGt, not_lt]
  · simp [checkTimestamp, jsAbs, jsSub, jsGt]

/-- C3: on every execution path of `restartSystem` that issues the reboot
command, the guard-record write is sequenced strictly before the `exec` call —
when the write succeeds the record is written before the command is issued,
and when it fails the caught-and-logged attempt still precedes the command. -/
theorem restartSystem_write_before_exec
    (minRebootInterval now : Int) (fileContent : Option (Option Int))
    (writeOk devMode isWin32 : Bool) (i : Nat) (c : String)
    (h : (restartSystem minRebootInterval now fileContent writeOk devMode isWin32).get? i
        = some (RebootEvent.execCmd c)) :
    (writeOk = true →
      RebootEvent.writeRecord
        ∈ (restartSystem minRebootInterval now fileContent writeOk devMode isWin32).take i)
    ∧ (RebootEvent.writeRecord
        ∈ (restartSystem minRebootInterval now fileContent writeOk devMode isWin32).take i
      ∨ RebootEvent.writeErrorLog
        ∈ (restartSystem minRebootInterval now fileContent writeOk devMode isWin32).take i) := by
  by_cases hg : now - getLastRebootTimestamp fileContent < minRebootInterval
  · rw [restartSystem_denied hg] at h
    exfalso
    obtain _ | n := i
    · simp at h
    · simp at h
  · rw [restartSystem_allowed hg] at h ⊢
    exact write_before_exec_aux writeOk _ i c h

/-- C3 witness: with no prior record, `now = 20` ms and a 10 ms cooldown, the
exec event sits at index 2 of the trace and the record write at index 0. -/
theorem restartSystem_write_before_exec_witness :
    RebootEvent.writeRecord ∈ (restartSystem 10 20 none true false false).take 2 :=
  (restartSystem_write_before_exec 10 20 none true false false 2
    "sudo shutdown -r +1" (by decide)).1 rfl

/-- C4 counterexample: with no prior reboot recorded (the guard file is
missing, read as 0) and `now = 5` ms against the default 1800000 ms cooldown,
the source denies the reboot, refuting the disjunct that the absence of a
prior record alone suffices for permission. -/
theorem rebootPermitted_no_record_denied_cex :
    getLastRebootTimestamp none = 0 ∧ rebootPermitted 1800000 5 none = false := by
  decide

/-- C4 amended: the guard permits exactly when `now - last ≥
minRebootInterval`, where a missing, unreadable or unparseable record is read
as `last = 0` — so with no prior record it permits exactly when `now` itself
has passed `minRebootInterval` — and it denies strictly inside the window and
re-permits exactly at the boundary; the decision coincides with whether
`restartSystem` issues the command. -/
theorem rebootPermitted_iff_interval_elapsed
    (minRebootInterval now : Int) (fileContent : Option (Option Int))
    (writeOk devMode isWin32 : Bool) :
    (rebootPermitted minRebootInterval now fileContent = true
      ↔ minRebootInterval ≤ now - getLastRebootTimestamp fileContent)
    ∧ (rebootPermitted minRebootInterval now fileContent = true
      ↔ RebootEvent.execCmd (restartCmd devMode isWin32)
          ∈ restartSystem minRebootInterval now fileContent writeOk devMode isWin32) := by
  constructor
  · simp [rebootPermitted, not_lt]
  · by_cases hg : now - getLastRebootTimestamp fileContent < minRebootInterval
    · rw [restartSystem_denied hg]
      simp [rebootPermitted, hg]
    · rw [restartSystem_allowed hg]
      cases writeOk <;> simp [rebootPermitted, hg, setLastRebootTimestamp]

/-- C8: with positive clock readings and a non-negative configured timeout,
the invariant that `timestamp_alarm` is non-zero exactly when `alarm` is
active holds initially and is preserved by `setAlarm`, and the stored deadline
never changes while the alarm stays active. -/
theorem alarm_raisedAt_invariant (s : AlarmSt) (timeoutDuration now : Int) (state : Bool)
    (h1 : 0 < now) (h2 : 0 ≤ timeoutDuration)
    (hInv : s.alarm = true ↔ s.timestamp_alarm ≠ 0) :
    (initialAlarm.alarm = true ↔ initialAlarm.timestamp_alarm ≠ 0)
    ∧ ((setAlarm timeoutDuration now state s).alarm = true
        ↔ (setAlarm timeoutDuration now state s).timestamp_alarm ≠ 0)
    ∧ (s.alarm = true → (setAlarm timeoutDuration now state s).alarm = true →
        (setAlarm timeoutDuration now state s).timestamp_alarm = s.timestamp_alarm) := by
  refine ⟨by simp [initialAlarm], ?_, ?_⟩
  · cases s with
    | mk a t =>
        cases a <;> cases state <;> simp [setAlarm] at hInv ⊢ <;> omega
  · cases s with
    | mk a t =>
        cases a <;> cases state <;> simp [setAlarm]

/-- C8 witness: arming from the initial state at `now = 1000` ms with the
180000 ms default timeout yields a state satisfying the invariant. -/
theorem alarm_raisedAt_invariant_witness :
    (setAlarm 180000 1000 true initialAlarm).alarm = true
      ↔ (setAlarm 180000 1000 true initialAlarm).timestamp_alarm ≠ 0 :=
  (alarm_raisedAt_invariant initialAlarm 180000 1000 true (by decide) (by decide)
    (by decide)).2.1

/-- C9: persistence errors never abort the cycle — a failed read of the
guard file is caught and read as 0, making the whole routine behave exactly
as if the stored record were 0 (permissive); and a failed write is caught and
logged, the command being issued independently of whether the write
succeeded. -/
theorem persistence_failures_nonfatal
    (minRebootInterval now : Int) (fileContent : Option (Option Int))
    (devMode isWin32 : Bool) (c : String) :
    getLastRebootTimestamp none = 0
    ∧ restartSystem minRebootInterval now none true devMode isWin32
        = restartSystem minRebootInterval now (some (some 0)) true devMode isWin32
    ∧ (RebootEvent.execCmd c
        ∈ restartSystem minRebootInterval now fileContent false devMode isWin32
      ↔ RebootEvent.execCmd c
        ∈ restartSystem minRebootInterval now fileContent true devMode isWin32)
    ∧ (rebootPermitted minRebootInterval now fileContent = true →
        RebootEvent.writeErrorLog
          ∈ restartSystem minRebootInterval now fileContent false devMode isWin32) := by
  refine ⟨rfl, rfl, ?_, ?_⟩
  · by_cases hg : now - getLastRebootTimestamp fileContent < minRebootInterval
    · rw [restartSystem_denied hg, restartSystem_denied hg]
    · rw [restartSystem_allowed hg, restartSystem_allowed hg]
      simp [setLastRebootTimestamp]
  · intro hp
    have hg : ¬ (now - getLastRebootTimestamp fileContent < minRebootInterval) := by
      simpa [rebootPermitted, not_lt] using hp
    rw [restartSystem_allowed hg]
    simp [setLastRebootTimestamp]

/-- C9 witness: with a missing guard file, `now = 20` ms, a 10 ms cooldown and
a failing write, the reboot still proceeds and the failure is logged. -/
theorem persistence_failures_nonfatal_witness :
    RebootEvent.writeErrorLog ∈ restartSystem 10 20 none false false false :=
  (persistence_failures_nonfatal 10 20 none false false "x").2.2.2 (by decide)

/-- C10 counterexample: the empty string is a set NODE_ENV value different
from "development" and "production", yet startup does not throw — the `||`
on line 13 treats the falsy empty string like an unset variable and defaults
to "production", so the server and client start. -/
theorem startup_empty_env_no_throw_cex :
    "" ≠ "development" ∧ "" ≠ "production"
    ∧ startup (some "") true true = .started true true := by
  decide

/-- C10 amended: for every non-empty NODE_ENV value other than "development"
and "production", startup reaches the unknown-mode branch, whose assignment to
the `const` binding `env` throws before the server or client is started;
unset and empty values default to "production". -/
theorem startup_unknown_env_throws (s : String) (isServer isClient : Bool)
    (h1 : s ≠ "") (h2 : s ≠ "development") (h3 : s ≠ "production") :
    startup (some s) isServer isClient = .thrown := by
  simp [startup, envOf, h1, h2, h3]

/-- C10 witness: NODE_ENV set to "test" makes startup throw. -/
theorem startup_unknown_env_throws_witness :
    startup (some "test") true true = .thrown :=
  startup_unknown_env_throws "test" true true (by decide) (by decide) (by decide)

end SyncAutoreboot
